import Mathlib

/-!
Shallow embedding of the dispatch core of the `obsidian-rpc-v2` JSON-RPC
reverse proxy (`src/server.ts`, `src/types.ts`).  JavaScript values that the
code reads and writes (parsed JSON bodies, response envelopes, error values)
are modelled by the `Json` inductive; JavaScript objects are ordered field
lists, which makes wire-level key order a provable property.  Numbers are
modelled as integers (the code only ever handles integral ids, codes and
millisecond counts).  Mutable process state (health table, round-robin
cursor, stats, cache) is threaded explicitly.
-/

namespace ObsidianRpc

/-- A JSON value as the proxy sees it after `JSON.parse`.  Objects keep their
fields in insertion order, mirroring the JavaScript object model that the
field-order normalizer relies on. -/
inductive Json where
  | null : Json
  | bool (b : Bool) : Json
  | num (n : Int) : Json
  | str (s : String) : Json
  | arr (elems : List Json) : Json
  | obj (fields : List (String × Json)) : Json
  deriving Repr

/-- Property access `j[k]` on a JavaScript value: `none` models `undefined`
(missing key or non-object receiver), `some .null` models an explicit `null`. -/
def objGet (j : Json) (k : String) : Option Json :=
  match j with
  | .obj fields => lookupField fields k
  | _ => none
where lookupField : List (String × Json) → String → Option Json
  | [], _ => none
  | (k0, v) :: rest, k => if k0 = k then some v else lookupField rest k

/-- JavaScript truthiness of a value. -/
def jsTruthy : Json → Bool
  | .null => false
  | .bool b => b
  | .num n => n != 0
  | .str s => s ≠ ""
  | .arr _ => true
  | .obj _ => true

/-- Truthiness of a possibly-`undefined` value. -/
def jsTruthyO : Option Json → Bool
  | none => false
  | some j => jsTruthy j

/-- The JavaScript `a || b` idiom on a possibly-`undefined` `a`. -/
def jsOr (a : Option Json) (b : Json) : Json :=
  match a with
  | some j => if jsTruthy j then j else b
  | none => b

/-- The keys of a JSON object, in wire order. -/
def keysOf : Json → List String
  | .obj fields => fields.map Prod.fst
  | _ => []

/-- Escape for `JSON.stringify` string output (quotes and backslashes; the
strings the proxy handles contain no control characters). -/
def jsonEscape (s : String) : String :=
  s.toList.foldl (fun acc c =>
    if c = '\"' then acc ++ "\\\"" else if c = '\\' then acc ++ "\\\\"
    else acc.push c) ""

mutual
/-- `JSON.stringify` on the modelled values. -/
def stringify : Json → String
  | .null => "null"
  | .bool b => if b then "true" else "false"
  | .num n => toString n
  | .str s => "\"" ++ jsonEscape s ++ "\""
  | .arr elems => "[" ++ stringifyList elems ++ "]"
  | .obj fields => "\x7b" ++ stringifyFields fields ++ "\x7d"

def stringifyList : List Json → String
  | [] => ""
  | [x] => stringify x
  | x :: y :: rest => stringify x ++ "," ++ stringifyList (y :: rest)

def stringifyFields : List (String × Json) → String
  | [] => ""
  | [(k, v)] => "\"" ++ jsonEscape k ++ "\":" ++ stringify v
  | (k, v) :: f :: rest =>
      "\"" ++ jsonEscape k ++ "\":" ++ stringify v ++ "," ++ stringifyFields (f :: rest)
end

/-- `String(x)` coercion (template literals, `RegExp.test` argument
coercion).  Array elements stringify recursively with `null` rendered empty,
per `Array.prototype.toString`. -/
def jsToString : Json → String
  | .null => "null"
  | .bool b => if b then "true" else "false"
  | .num n => toString n
  | .str s => s
  | .arr elems => jsToStringElems elems
  | .obj _ => "[object Object]"
where jsToStringElems : List Json → String
  | [] => ""
  | [x] => (match x with | .null => "" | x => jsToString x)
  | x :: y :: rest =>
      (match x with | .null => "" | x => jsToString x) ++ "," ++ jsToStringElems (y :: rest)

/-- `String(x)` where `x` may be `undefined`. -/
def jsToStringO : Option Json → String
  | none => "undefined"
  | some j => jsToString j

/-! ### Error classification (`isEndpointFailure`, server.ts lines 49-121)

The classifier's star-free regular expressions are embedded as an explicit
pattern syntax `Rx` with a direct matcher; `.?` is `Rx.opt Rx.any`,
alternation groups are `Rx.alt`, and the `i` flag is realised by lowercasing
the subject (all flagged patterns are written in lowercase). -/

/-- Star-free regular-expression syntax, enough for the classifier tables. -/
inductive Rx where
  | emp : Rx
  | ch (c : Char) : Rx
  | any : Rx
  | alt (a b : Rx) : Rx
  | seq (a b : Rx) : Rx
  | opt (a : Rx) : Rx

/-- All remainders left after matching `r` against a prefix of `s`. -/
def rxMatchPre : Rx → List Char → List (List Char)
  | .emp, s => [s]
  | .ch _, [] => []
  | .ch c, x :: xs => if x = c then [xs] else []
  | .any, [] => []
  | .any, _ :: xs => [xs]
  | .alt a b, s => rxMatchPre a s ++ rxMatchPre b s
  | .seq a b, s => (rxMatchPre a s).flatMap (rxMatchPre b)
  | .opt a, s => s :: rxMatchPre a s

/-- `RegExp.prototype.test` search semantics: does `r` match anywhere? -/
def rxSearch (r : Rx) : List Char → Bool
  | [] => !(rxMatchPre r []).isEmpty
  | s@(_ :: xs) => !(rxMatchPre r s).isEmpty || rxSearch r xs

/-- ASCII lowering of one character (the classifier patterns are ASCII). -/
def lowerChar (c : Char) : Char :=
  if 'A' ≤ c ∧ c ≤ 'Z' then Char.ofNat (c.toNat + 32) else c

/-- `pattern.test(s)` with the case-insensitive flag, realised by lowering
the subject (every flagged pattern is written lowercase). -/
def rxTest (r : Rx) (s : String) : Bool :=
  rxSearch r (s.data.map lowerChar)

/-- Literal string pattern. -/
def rxStr (s : String) : Rx :=
  s.toList.foldr (fun c r => Rx.seq (.ch c) r) .emp

/-- Concatenation of pattern pieces. -/
def rxCat (rs : List Rx) : Rx :=
  rs.foldr Rx.seq .emp

/-- The `.?` regex fragment. -/
def dotOpt : Rx := Rx.opt .any

/-- `ENDPOINT_FAILURE_PATTERNS` (server.ts lines 49-81), in source order. -/
def ENDPOINT_FAILURE_PATTERNS : List Rx :=
  [ rxCat [rxStr "rate", dotOpt, rxStr "limit"],
    rxStr "too many requests",
    rxCat [rxStr "request", dotOpt, rxStr "limit", dotOpt, rxStr "exceeded"],
    rxStr "throttl",
    rxStr "429",
    rxStr "ru credits",
    rxCat [rxStr "compute", dotOpt, rxStr "units"],
    rxCat [rxStr "quota", dotOpt, rxStr "exceeded"],
    rxCat [rxStr "insufficient", dotOpt, rxStr "credits"],
    rxStr "econnrefused",
    rxStr "etimedout",
    rxStr "enotfound",
    rxStr "socket hang up",
    rxStr "network error",
    rxCat [rxStr "connection", dotOpt,
           Rx.alt (rxStr "refused") (Rx.alt (rxStr "reset") (rxStr "closed"))],
    rxStr "timeout",
    rxCat [rxStr "service", dotOpt, rxStr "unavailable"],
    rxStr "503",
    rxStr "502",
    rxStr "gateway",
    rxCat [rxStr "internal", dotOpt, rxStr "server", dotOpt, rxStr "error"],
    rxStr "500" ]

/-- `NORMAL_RPC_ERROR_PATTERNS` (server.ts lines 84-96), in source order. -/
def NORMAL_RPC_ERROR_PATTERNS : List Rx :=
  [ rxStr "intrinsic gas",
    rxCat [rxStr "insufficient", dotOpt, rxStr "funds"],
    rxCat [rxStr "nonce too ", Rx.alt (rxStr "low") (rxStr "high")],
    rxCat [rxStr "transaction", dotOpt, rxStr "underpriced"],
    rxCat [rxStr "invalid", dotOpt, rxStr "argument"],
    rxCat [rxStr "execution", dotOpt, rxStr "reverted"],
    rxCat [rxStr "contract", dotOpt, rxStr "call", dotOpt, rxStr "exception"],
    rxCat [rxStr "invalid", dotOpt, rxStr "signature"],
    rxCat [rxStr "gas", dotOpt, rxStr "limit"],
    rxStr "already known",
    rxCat [rxStr "replacement", dotOpt, rxStr "transaction"] ]

/-- The string the classifier matches against:
`typeof error === 'string' ? error : error.message || error.data ||
JSON.stringify(error)` (server.ts lines 102-103). -/
def errorStrOf (e : Json) : String :=
  match e with
  | .str s => s
  | _ => jsToString (jsOr (objGet e "message")
                      (jsOr (objGet e "data") (.str (stringify e))))

/-- `isEndpointFailure` (server.ts lines 99-121): falsy errors are not
endpoint failures; normal-RPC patterns are consulted first and win; unknown
errors default to application-RPC errors. -/
def isEndpointFailure (e : Json) : Bool :=
  if !jsTruthy e then false
  else
    let s := errorStrOf e
    if NORMAL_RPC_ERROR_PATTERNS.any (fun p => rxTest p s) then false
    else ENDPOINT_FAILURE_PATTERNS.any (fun p => rxTest p s)

/-! ### Endpoint health records (`EndpointHealth`, `updateEndpointHealth`,
server.ts lines 124-150 and 229-262) -/

/-- Chain identity constants (server.ts lines 15-16). -/
def ARBITRUM_CHAIN_ID : Nat := 42161

/-- Hex form of the chain id (server.ts line 16). -/
def ARBITRUM_CHAIN_ID_HEX : String := "0xa4b1"

/-- One endpoint's health record.  `activeRequests` is an integer so that the
nonnegativity claimed by the spec is a provable property rather than a typing
artifact; latency samples are millisecond counts and the average is exact. -/
structure EndpointHealth where
  url : String
  isHealthy : Bool
  consecutiveFailures : Nat
  lastFailure : Option Nat
  activeRequests : Int
  totalRequests : Nat
  totalFailures : Nat
  averageResponseTime : ℚ
  responseTimeSamples : List Nat
  deriving Repr

/-- The record installed at startup for each configured URL
(server.ts lines 139-150). -/
def initHealth (url : String) : EndpointHealth :=
  { url := url
    isHealthy := true
    consecutiveFailures := 0
    lastFailure := none
    activeRequests := 0
    totalRequests := 0
    totalFailures := 0
    averageResponseTime := 0
    responseTimeSamples := [] }

/-- `updateEndpointHealth` on a single record (server.ts lines 229-262):
success zeroes the failure streak, records the latency sample (ring of at
most 100) and re-marks healthy; failure bumps the streak and flips to
unhealthy once the streak reaches three while healthy. -/
def updateEndpointHealthRec (now : Nat) (h : EndpointHealth) (success : Bool)
    (responseTime : Option Nat) : EndpointHealth :=
  let h := { h with totalRequests := h.totalRequests + 1 }
  if success then
    let h := { h with consecutiveFailures := 0 }
    let h :=
      match responseTime with
      | some rt =>
          let samples := h.responseTimeSamples ++ [rt]
          let samples := if samples.length > 100 then samples.drop 1 else samples
          { h with responseTimeSamples := samples
                   averageResponseTime :=
                     (samples.map (fun n => (n : ℚ))).sum / samples.length }
      | none => h
    if !h.isHealthy then { h with isHealthy := true } else h
  else
    let h := { h with totalFailures := h.totalFailures + 1
                      consecutiveFailures := h.consecutiveFailures + 1
                      lastFailure := some now }
    if h.consecutiveFailures ≥ 3 && h.isHealthy then { h with isHealthy := false } else h

/-- The recovery scanner's success action (server.ts lines 950-951):
re-mark healthy and clear the streak. -/
def forceHealthy (h : EndpointHealth) : EndpointHealth :=
  { h with isHealthy := true, consecutiveFailures := 0 }

/-- Health records reachable from startup under the operations the code
performs on them: outcome recording, scanner recovery, and the dispatcher's
active-request increment and decrement. -/
inductive ReachableHealth : EndpointHealth → Prop where
  | init (url : String) : ReachableHealth (initHealth url)
  | update {h} (now : Nat) (success : Bool) (rt : Option Nat) :
      ReachableHealth h → ReachableHealth (updateEndpointHealthRec now h success rt)
  | recover {h} : ReachableHealth h → ReachableHealth (forceHealthy h)
  | beginDispatch {h} : ReachableHealth h →
      ReachableHealth { h with activeRequests := h.activeRequests + 1 }
  | endDispatch {h} : ReachableHealth h →
      ReachableHealth { h with activeRequests := h.activeRequests - 1 }

/-! ### Configuration, core state and the selector
(`getNextRpcUrlSimple` lines 160-185, `getRetryRpcUrls` lines 188-210) -/

/-- The configuration the dispatch core reads (environment defaults:
`MAX_CONCURRENT_REQUESTS = 200`, `MAX_RETRY_ATTEMPTS = 2`,
`ENABLE_CACHE = false`, `CACHE_TTL = 1000`). -/
structure Config where
  urls : List String
  maxConcurrent : Nat
  maxRetry : Nat
  enableCache : Bool
  cacheTTL : Nat

/-- Core mutable state touched by selection and dispatch: the round-robin
cursor (`currentIndex`) and the health table (`endpointHealth`). -/
structure CoreState where
  cursor : Nat
  health : String → Option EndpointHealth

/-- The selector's acceptance test (server.ts line 167):
registered, healthy, and under the per-endpoint concurrency cap. -/
def healthyWithCapacity (cfg : Config) (st : CoreState) (url : String) : Bool :=
  match st.health url with
  | some h => h.isHealthy && h.activeRequests < (cfg.maxConcurrent : Int)
  | none => false

/-- The `while (attempts < RPC_URLS.length)` loop of `getNextRpcUrlSimple`
(lines 161-171), returning the accepted URL (if any) and the final cursor.
The cursor advances once per examined candidate. -/
def pickLoop (cfg : Config) (st : CoreState) : Nat → Nat → Option String × Nat
  | 0, idx => (none, idx)
  | fuel + 1, idx =>
      let url := cfg.urls.getD idx ""
      let idx1 := (idx + 1) % cfg.urls.length
      if healthyWithCapacity cfg st url then (some url, idx1)
      else pickLoop cfg st fuel idx1

/-- Least-loaded fallback (server.ts lines 173-184): first strict minimum of
`activeRequests` over the health table in registration order, seeded with
`RPC_URLS[0]`. -/
def leastLoaded (cfg : Config) (st : CoreState) : String :=
  (cfg.urls.foldl (fun acc url =>
      match st.health url with
      | some h =>
          match acc.2 with
          | none => (url, some h.activeRequests)
          | some lo => if h.activeRequests < lo then (url, some h.activeRequests) else acc
      | none => acc)
    (cfg.urls.getD 0 "", (none : Option Int))).1

/-- `getNextRpcUrlSimple` (server.ts lines 160-185). -/
def getNextRpcUrlSimple (cfg : Config) (st : CoreState) : String × CoreState :=
  match pickLoop cfg st cfg.urls.length st.cursor with
  | (some url, idx1) => (url, { st with cursor := idx1 })
  | (none, idx1) => (leastLoaded cfg st, { st with cursor := idx1 })

/-- The `while` loop of `getRetryRpcUrls` (lines 193-207): collect healthy
under-capacity URLs other than the failed one, stopping at `maxRetries`
collected or one full revolution examined. -/
def retryUrlsLoop (cfg : Config) (st : CoreState) (failedUrl : String)
    (maxRetries : Nat) : Nat → Nat → List String → List String
  | 0, _, acc => acc
  | fuel + 1, idx, acc =>
      if acc.length < maxRetries then
        let url := cfg.urls.getD idx ""
        let acc1 :=
          if url ≠ failedUrl && healthyWithCapacity cfg st url then acc ++ [url] else acc
        retryUrlsLoop cfg st failedUrl maxRetries fuel ((idx + 1) % cfg.urls.length) acc1
      else acc

/-- `getRetryRpcUrls` (server.ts lines 188-210): empty when the failed URL is
not configured, else a forward walk starting just after it. -/
def getRetryRpcUrls (cfg : Config) (st : CoreState) (failedUrl : String)
    (maxRetries : Nat) : List String :=
  match cfg.urls.findIdx? (fun u => u = failedUrl) with
  | none => []
  | some startIdx =>
      retryUrlsLoop cfg st failedUrl maxRetries cfg.urls.length
        ((startIdx + 1) % cfg.urls.length) []

/-! ### Dispatcher and retry orchestrator
(`normalizeResponseFieldOrder` lines 302-318, `handleLocalMethod` 363-386,
`proxyRequestWithRetry` 389-428, `proxyRequest` 431-503) -/

/-- `normalizeResponseFieldOrder` (server.ts lines 302-318): rebuild the
envelope with `jsonrpc` first (defaulted when falsy), `id` second (defaulted
to `null` only when `undefined`), then `error` when truthy, else `result`
when present. -/
def normalizeResponseFieldOrder (response : Json) : Json :=
  Json.obj
    ([("jsonrpc", jsOr (objGet response "jsonrpc") (.str "2.0")),
      ("id", (objGet response "id").getD .null)] ++
     (if jsTruthyO (objGet response "error") then
        [("error", (objGet response "error").getD .null)]
      else if (objGet response "result").isSome then
        [("result", (objGet response "result").getD .null)]
      else []))

/-- `handleLocalMethod` (server.ts lines 363-386): the chain-identity
short-circuits.  Note the `request.id || null` coercion on the echoed id. -/
def handleLocalMethod (request : Json) : Option Json :=
  match objGet request "method" with
  | some (.str "eth_chainId") =>
      some (Json.obj [("jsonrpc", .str "2.0"),
                      ("id", jsOr (objGet request "id") .null),
                      ("result", .str ARBITRUM_CHAIN_ID_HEX)])
  | some (.str "net_version") =>
      some (Json.obj [("jsonrpc", .str "2.0"),
                      ("id", jsOr (objGet request "id") .null),
                      ("result", .str (toString ARBITRUM_CHAIN_ID))])
  | _ => none

/-- The envelope synthesized by `proxyRequest`'s catch block
(server.ts lines 489-497). -/
def dispatchErrorResponse (request : Json) (errorMessage : String)
    (isTimeout : Bool) : Json :=
  Json.obj [("jsonrpc", .str "2.0"),
            ("id", jsOr (objGet request "id") .null),
            ("error", Json.obj
              [("code", .num (if isTimeout then -32050 else -32603)),
               ("message", .str (if isTimeout then "Request timeout" else "Internal error")),
               ("data", .str errorMessage)])]

/-- What one upstream attempt yields: a 2xx body parsed to JSON together
with the elapsed milliseconds, or a raised error (transport failure, non-2xx
HTTP status, body parse failure, or the abort-controller timeout). -/
inductive UpstreamOutcome where
  | ok (data : Json) (elapsed : Nat) : UpstreamOutcome
  | fail (errorMessage : String) (isTimeout : Bool) : UpstreamOutcome

/-- The network oracle: what each endpoint returns for a request. -/
def Net := String → Json → UpstreamOutcome

/-- `health.activeRequests++` before the send (server.ts lines 437-439). -/
def beginDispatch (url : String) (st : CoreState) : CoreState :=
  { st with health := fun u =>
      if u = url then (st.health u).map (fun h => { h with activeRequests := h.activeRequests + 1 })
      else st.health u }

/-- `health.activeRequests--` in the `finally` block (lines 498-502). -/
def endDispatch (url : String) (st : CoreState) : CoreState :=
  { st with health := fun u =>
      if u = url then (st.health u).map (fun h => { h with activeRequests := h.activeRequests - 1 })
      else st.health u }

/-- `updateEndpointHealth` applied through the table (no-op when the URL is
unregistered, matching the `if (!health) return` guard). -/
def updateHealthMap (now : Nat) (url : String) (success : Bool)
    (responseTime : Option Nat) (st : CoreState) : CoreState :=
  { st with health := fun u =>
      if u = url then (st.health u).map (fun h => updateEndpointHealthRec now h success responseTime)
      else st.health u }

/-- `proxyRequest` (server.ts lines 431-503): increment the active count,
attempt the send, record health by classifying any upstream error, normalize
the envelope (or synthesize a timeout or internal error), and decrement the
active count on every exit path. -/
def proxyRequest (net : Net) (now : Nat) (request : Json) (rpcUrl : String)
    (st : CoreState) : Json × CoreState :=
  let st1 := beginDispatch rpcUrl st
  match net rpcUrl request with
  | .ok data elapsed =>
      let e := objGet data "error"
      let st2 :=
        if jsTruthyO e && isEndpointFailure (e.getD .null) then
          updateHealthMap (now + elapsed) rpcUrl false none st1
        else
          updateHealthMap (now + elapsed) rpcUrl true (some elapsed) st1
      (normalizeResponseFieldOrder data, endDispatch rpcUrl st2)
  | .fail errorMessage isTimeout =>
      let st2 := updateHealthMap now rpcUrl false none st1
      (dispatchErrorResponse request errorMessage isTimeout, endDispatch rpcUrl st2)

/-- The `for (const retryUrl of retryUrls)` loop of `proxyRequestWithRetry`
(lines 414-423).  The third component counts upstream dispatches performed
so far (the loop adds one per attempted URL). -/
def retryLoop (net : Net) (now : Nat) (request : Json) :
    List String → Json → CoreState → Nat → Json × CoreState × Nat
  | [], lastError, st, n => (lastError, st, n)
  | retryUrl :: rest, _lastError, st, n =>
      let r := proxyRequest net now request retryUrl st
      if !jsTruthyO (objGet r.1 "error") then (r.1, r.2, n + 1)
      else retryLoop net now request rest r.1 r.2 (n + 1)

/-- `proxyRequestWithRetry` (server.ts lines 389-428): local short-circuit,
primary pick and dispatch, then — whenever the primary response carries an
error and retries are enabled — a walk over the retry picks.  The third
component counts upstream dispatches. -/
def proxyRequestWithRetry (cfg : Config) (net : Net) (now : Nat)
    (request : Json) (st : CoreState) : Json × CoreState × Nat :=
  match handleLocalMethod request with
  | some localResponse => (localResponse, st, 0)
  | none =>
      let pick := getNextRpcUrlSimple cfg st
      let primaryUrl := pick.1
      let primary := proxyRequest net now request primaryUrl pick.2
      if !jsTruthyO (objGet primary.1 "error") then (primary.1, primary.2, 1)
      else if 0 < cfg.maxRetry then
        let retryUrls := getRetryRpcUrls cfg primary.2 primaryUrl cfg.maxRetry
        retryLoop net now request retryUrls primary.1 primary.2 1
      else (primary.1, primary.2, 1)

/-! ### The `/rpc` POST handler (server.ts lines 571-864): stats, cache,
batch and single-request paths -/

/-- The global request counters the handler mutates (`stats`,
server.ts lines 34-42; the derived rate fields are not modelled). -/
structure Stats where
  totalRequests : Nat
  successfulRequests : Nat
  failedRequests : Nat
  rpcErrors : Nat
  proxyErrors : Nat
  lastError : Option Json
  lastRpcError : Option Json

/-- A response-cache entry (server.ts lines 153-156). -/
structure CacheEntry where
  response : Json
  timestamp : Nat

/-- The whole process state the `/rpc` handler touches. -/
structure ServerState where
  core : CoreState
  stats : Stats
  cache : List (String × CacheEntry)

/-- `getCacheKey` (server.ts lines 265-267). -/
def getCacheKey (request : Json) : String :=
  jsToStringO (objGet request "method") ++ ":" ++
    stringify (jsOr (objGet request "params") (.arr []))

/-- First-match lookup in the insertion-ordered cache. -/
def cacheGet : List (String × CacheEntry) → String → Option CacheEntry
  | [], _ => none
  | (k, v) :: rest, key => if k = key then some v else cacheGet rest key

/-- `Map.prototype.set`: overwrite in place, else append. -/
def cacheSet : List (String × CacheEntry) → String → CacheEntry →
    List (String × CacheEntry)
  | [], key, v => [(key, v)]
  | (k, v0) :: rest, key, v =>
      if k = key then (key, v) :: rest else (k, v0) :: cacheSet rest key v

/-- `cleanCache` (server.ts lines 270-277): drop entries older than the TTL. -/
def cleanCache (now ttl : Nat) (cache : List (String × CacheEntry)) :
    List (String × CacheEntry) :=
  cache.filter (fun e => !(now - e.2.timestamp > ttl))

/-- Overwrite a key in place (JavaScript object spread followed by an
explicit property keeps the original position of an existing key). -/
def setField : List (String × Json) → String → Json → List (String × Json)
  | [], key, v => [(key, v)]
  | (k, v0) :: rest, key, v =>
      if k = key then (key, v) :: rest else (k, v0) :: setField rest key v

/-- Drop a key (a property explicitly set to `undefined` disappears from the
serialized wire form). -/
def removeField (fields : List (String × Json)) (key : String) :
    List (String × Json) :=
  fields.filter (fun f => f.1 ≠ key)

/-- `{ ...cached.response, id: singleBody.id }` (server.ts line 786). -/
def objSetId (j : Json) (idv : Option Json) : Json :=
  match j, idv with
  | .obj fields, some v => .obj (setField fields "id" v)
  | .obj fields, none => .obj (removeField fields "id")
  | _, some v => .obj [("id", v)]
  | _, none => .obj []

/-- The invalid-envelope rejection (server.ts lines 697-704 and 756-763). -/
def invalidRequestResponse (request : Json) : Json :=
  Json.obj [("jsonrpc", .str "2.0"),
            ("id", jsOr (objGet request "id") .null),
            ("error", Json.obj [("code", .num (-32600)),
                                ("message", .str "Invalid Request")])]

/-- The framing parse error (server.ts lines 644-651 and friends). -/
def parseErrorResponse : Json :=
  Json.obj [("jsonrpc", .str "2.0"),
            ("id", .null),
            ("error", Json.obj [("code", .num (-32700)),
                                ("message", .str "Parse error")])]

/-- The ethers.js v6 empty-object probe answer (server.ts lines 735-739). -/
def probeResponse : Json :=
  Json.obj [("jsonrpc", .str "2.0"), ("id", .num 1),
            ("result", .str ARBITRUM_CHAIN_ID_HEX)]

/-- The single-path stats accounting (server.ts lines 817-831): endpoint
failures count as failed requests and proxy errors; application RPC errors
count as successful proxy operations. -/
def statsClassify (response : Json) (s : Stats) : Stats :=
  let eo := objGet response "error"
  if jsTruthyO eo then
    let e := eo.getD .null
    if isEndpointFailure e then
      { s with failedRequests := s.failedRequests + 1
               proxyErrors := s.proxyErrors + 1
               lastError := some (.str ("[PROXY] " ++
                 jsToString (jsOr (objGet e "message") (.str (stringify e))))) }
    else
      { s with rpcErrors := s.rpcErrors + 1
               successfulRequests := s.successfulRequests + 1
               lastRpcError := some (jsOr (objGet e "message") (.str (stringify e))) }
  else { s with successfulRequests := s.successfulRequests + 1 }

/-- The single-request path (server.ts lines 779-838): cache consultation
when enabled, dispatch through the retry orchestrator otherwise, caching of
non-error responses, then stats classification. -/
def singleRequestPath (cfg : Config) (net : Net) (now : Nat)
    (st : ServerState) (request : Json) : Json × ServerState :=
  let cacheKey := getCacheKey request
  let miss : Unit → Json × CoreState × List (String × CacheEntry) := fun _ =>
    let cache1 := if st.cache.length > 1000 then cleanCache now cfg.cacheTTL st.cache
                  else st.cache
    let r := proxyRequestWithRetry cfg net now request st.core
    let cache2 :=
      if !jsTruthyO (objGet r.1 "error") && cfg.enableCache then
        cacheSet cache1 cacheKey { response := r.1, timestamp := now }
      else cache1
    (r.1, r.2.1, cache2)
  let out :=
    if cfg.enableCache then
      match cacheGet st.cache cacheKey with
      | some cached =>
          if now - cached.timestamp < cfg.cacheTTL then
            (objSetId cached.response (objGet request "id"), st.core, st.cache)
          else miss ()
      | none => miss ()
    else
      let r := proxyRequestWithRetry cfg net now request st.core
      (r.1, r.2.1, st.cache)
  (out.1, { core := out.2.1, stats := statsClassify out.1 st.stats, cache := out.2.2 })

/-- Is this JSON value the literal `null`?  Property access on `null`
throws a `TypeError` in JavaScript (access on non-null primitives merely
yields `undefined`). -/
def Json.isNull : Json → Bool
  | .null => true
  | _ => false

/-- The batch loop (server.ts lines 686-726): validate each element, run
the orchestrator on the valid ones, collect responses in order.  It touches
neither the cache nor the stats counters — but a `null` element throws a
`TypeError` at `logRequest(request)` / `request.jsonrpc` (lines 692 and
696; the `as JSONRPCRequest[]` cast is erased at runtime), which aborts the
loop and escapes to the handler's catch block.  `Except.error ()` models
the thrown `TypeError`; the state at the throw point is kept, since earlier
elements were already dispatched. -/
def processBatch (cfg : Config) (net : Net) (now : Nat) :
    CoreState → List Json → Except Unit (List Json) × CoreState
  | core, [] => (.ok [], core)
  | core, request :: rest =>
      if request.isNull then (.error (), core)
      else if !jsTruthyO (objGet request "jsonrpc") || !jsTruthyO (objGet request "method") then
        let out := processBatch cfg net now core rest
        (out.1.map (invalidRequestResponse request :: ·), out.2)
      else
        let r := proxyRequestWithRetry cfg net now request core
        let out := processBatch cfg net now r.2.1 rest
        (out.1.map (r.1 :: ·), out.2)

/-- The `/rpc` POST handler from the point where the body text has been
parsed to a JSON value (server.ts lines 571-864): bump `totalRequests`,
then dispatch to the batch path, the empty-object probe, the invalid-request
rejection, the parse-error rejection (non-object bodies), or the
single-request path.  The whole block sits in a try whose catch
(lines 840-863) bumps `failedRequests`, records the engine's error text in
`stats.lastError`, and answers with the single parse-error envelope; the
only statement in the block that can throw is the property access on a
`null` batch element, so the catch is modelled on that path, with the
engine-dependent `TypeError` message passed in as `tyMsg`. -/
def handleRpcPost (tyMsg : String) (cfg : Config) (net : Net) (now : Nat)
    (st : ServerState) (body : Json) : Json × ServerState :=
  let st := { st with stats := { st.stats with totalRequests := st.stats.totalRequests + 1 } }
  match body with
  | .arr requests =>
      let out := processBatch cfg net now st.core requests
      match out.1 with
      | .ok responses => (.arr responses, { st with core := out.2 })
      | .error _ =>
          (parseErrorResponse,
           { st with core := out.2,
                     stats := { st.stats with
                                failedRequests := st.stats.failedRequests + 1,
                                lastError := some (.str tyMsg) } })
  | .obj fields =>
      if fields.length = 0 then (probeResponse, st)
      else if !jsTruthyO (objGet body "jsonrpc") || !jsTruthyO (objGet body "method") then
        (invalidRequestResponse body,
         { st with stats := { st.stats with failedRequests := st.stats.failedRequests + 1 } })
      else singleRequestPath cfg net now st body
  | _ =>
      (parseErrorResponse,
       { st with stats := { st.stats with failedRequests := st.stats.failedRequests + 1 } })

/-! ## Helper lemmas -/

theorem updateRec_active (now : Nat) (h : EndpointHealth) (s : Bool) (rt : Option Nat) :
    (updateEndpointHealthRec now h s rt).activeRequests = h.activeRequests := by
  unfold updateEndpointHealthRec
  cases s <;> cases rt <;> simp <;> split_ifs <;> rfl

theorem updateRec_success (now : Nat) (h : EndpointHealth) (rt : Option Nat) :
    (updateEndpointHealthRec now h true rt).consecutiveFailures = 0 ∧
    (updateEndpointHealthRec now h true rt).isHealthy = true := by
  unfold updateEndpointHealthRec
  cases rt <;> cases hh : h.isHealthy <;> simp [hh]

theorem updateRec_fail_cf (now : Nat) (h : EndpointHealth) (rt : Option Nat) :
    (updateEndpointHealthRec now h false rt).consecutiveFailures = h.consecutiveFailures + 1 := by
  unfold updateEndpointHealthRec
  simp
  split_ifs <;> rfl

theorem updateRec_fail_healthy_of_lt (now : Nat) (h : EndpointHealth) (rt : Option Nat)
    (hlt : h.consecutiveFailures + 1 < 3) :
    (updateEndpointHealthRec now h false rt).isHealthy = h.isHealthy := by
  have h2 : ¬ (2 ≤ h.consecutiveFailures) := by omega
  unfold updateEndpointHealthRec
  simp [h2]

theorem updateRec_fail_healthy_of_ge (now : Nat) (h : EndpointHealth) (rt : Option Nat)
    (hge : 3 ≤ h.consecutiveFailures + 1) (hH : h.isHealthy = true) :
    (updateEndpointHealthRec now h false rt).isHealthy = false := by
  have h2 : 2 ≤ h.consecutiveFailures := by omega
  unfold updateEndpointHealthRec
  simp [h2, hH]

theorem updateRec_fail_healthy_of_unhealthy (now : Nat) (h : EndpointHealth) (rt : Option Nat)
    (hH : h.isHealthy = false) :
    (updateEndpointHealthRec now h false rt).isHealthy = false := by
  unfold updateEndpointHealthRec
  simp [hH]

/-- Key safety invariant of the health machine: a healthy record never holds
a failure streak above two, so the three-failure threshold is exact. -/
theorem reachable_healthy_cf_le_two {h : EndpointHealth} (hr : ReachableHealth h) :
    h.isHealthy = true → h.consecutiveFailures ≤ 2 := by
  induction hr with
  | init url => intro _; simp [initHealth]
  | @update h0 now success rt hr0 ih =>
      cases success with
      | true => intro _; simp [(updateRec_success now _ rt).1]
      | false =>
          intro hH
          rw [updateRec_fail_cf]
          cases hhy : h0.isHealthy with
          | false =>
              rw [updateRec_fail_healthy_of_unhealthy now h0 rt hhy] at hH
              exact absurd hH (by simp)
          | true =>
              by_cases h3 : 3 ≤ h0.consecutiveFailures + 1
              · rw [updateRec_fail_healthy_of_ge now h0 rt h3 hhy] at hH
                exact absurd hH (by simp)
              · omega
  | recover _ ih => intro _; simp [forceHealthy]
  | beginDispatch _ ih => intro hH; exact ih hH
  | endDispatch _ ih => intro hH; exact ih hH

/-- The primary-pick loop advances the cursor once per examined candidate:
after `fuel` available steps from a valid index, the final cursor is the
start plus the number of examined candidates, modulo the list length. -/
theorem pickLoop_cursor (cfg : Config) (st : CoreState) (hN : 0 < cfg.urls.length) :
    ∀ fuel idx, idx < cfg.urls.length →
      ∃ k, k ≤ fuel
        ∧ ((pickLoop cfg st fuel idx).1.isSome = true → 1 ≤ k)
        ∧ ((pickLoop cfg st fuel idx).1 = none → k = fuel)
        ∧ (pickLoop cfg st fuel idx).2 = (idx + k) % cfg.urls.length := by
  intro fuel
  induction fuel with
  | zero =>
      intro idx hidx
      exact ⟨0, le_refl 0, by simp [pickLoop], fun _ => rfl,
             by simp [pickLoop, Nat.mod_eq_of_lt hidx]⟩
  | succ n ih =>
      intro idx hidx
      by_cases hc : healthyWithCapacity cfg st (cfg.urls[idx]?.getD "") = true
      · exact ⟨1, by omega, fun _ => le_refl 1, by simp [pickLoop, hc], by simp [pickLoop, hc]⟩
      · have hc2 : healthyWithCapacity cfg st (cfg.urls[idx]?.getD "") = false := by
          simpa using hc
        have hidx1 : (idx + 1) % cfg.urls.length < cfg.urls.length := Nat.mod_lt _ hN
        obtain ⟨k, hk, hsome, hnone, hcur⟩ := ih ((idx + 1) % cfg.urls.length) hidx1
        refine ⟨k + 1, by omega, fun _ => by omega, ?_, ?_⟩
        · intro h0
          have hn : (pickLoop cfg st n ((idx + 1) % cfg.urls.length)).1 = none := by
            simpa [pickLoop, hc2] using h0
          have := hnone hn
          omega
        · have hstep : (pickLoop cfg st (n + 1) idx).2
              = (pickLoop cfg st n ((idx + 1) % cfg.urls.length)).2 := by
            simp [pickLoop, hc2]
          rw [hstep, hcur, Nat.mod_add_mod]
          congr 1
          omega

/-- Both branches of `getNextRpcUrlSimple` leave the cursor where the pick
loop left it. -/
theorem getNext_cursor (cfg : Config) (st : CoreState) :
    (getNextRpcUrlSimple cfg st).2.cursor = (pickLoop cfg st cfg.urls.length st.cursor).2 := by
  unfold getNextRpcUrlSimple
  rcases hp : pickLoop cfg st cfg.urls.length st.cursor with ⟨r, i⟩
  cases r <;> simp

/-- A record two consecutive failures after startup; still healthy, so the
next failure is the third and flips it. -/
def healthAfterTwoFailures : EndpointHealth :=
  updateEndpointHealthRec 1 (updateEndpointHealthRec 0 (initHealth "a") false none) false none

/-! ## Concrete instances used by counterexamples and witnesses -/

/-- Two configured endpoints, library defaults otherwise. -/
def cfgTwo : Config :=
  { urls := ["a", "b"], maxConcurrent := 200, maxRetry := 2,
    enableCache := false, cacheTTL := 1000 }

/-- Both endpoints fresh from startup. -/
def stTwoHealthy : CoreState :=
  { cursor := 0
    health := fun u =>
      if u = "a" then some (initHealth "a")
      else if u = "b" then some (initHealth "b") else none }

/-- Endpoint `a` unhealthy, endpoint `b` fresh. -/
def stFirstUnhealthy : CoreState :=
  { cursor := 0
    health := fun u =>
      if u = "a" then some { initHealth "a" with isHealthy := false }
      else if u = "b" then some (initHealth "b") else none }

/-- An application-level RPC error (a reverted call). -/
def errReverted : Json :=
  .obj [("code", .num 3), ("message", .str "execution reverted")]

/-- Endpoint `a` answers with the reverted-call error, endpoint `b`
answers with a result. -/
def netRevertThenOk : Net := fun url _ =>
  if url = "a" then
    .ok (.obj [("jsonrpc", .str "2.0"), ("id", .num 1), ("error", errReverted)]) 5
  else
    .ok (.obj [("jsonrpc", .str "2.0"), ("id", .num 1), ("result", .str "0xabc")]) 5

/-- A plain proxied request. -/
def reqEthCall : Json :=
  .obj [("jsonrpc", .str "2.0"), ("method", .str "eth_call"), ("id", .num 1)]

/-- An `eth_chainId` request with the falsy id `0`. -/
def reqChainIdZero : Json :=
  .obj [("jsonrpc", .str "2.0"), ("method", .str "eth_chainId"),
        ("params", .arr []), ("id", .num 0)]

/-- An `eth_chainId` request with id `9`. -/
def reqChainIdNine : Json :=
  .obj [("jsonrpc", .str "2.0"), ("method", .str "eth_chainId"),
        ("params", .arr []), ("id", .num 9)]

/-- A `net_version` request with id `7`. -/
def reqNetVersionSeven : Json :=
  .obj [("jsonrpc", .str "2.0"), ("method", .str "net_version"), ("id", .num 7)]

/-! ## Claims -/

/-- **C4.** For every error value, the classifier returns
application-rpc-error when the derived string matches any normal-RPC
pattern (even when it also matches an endpoint-failure pattern), returns
endpoint-failure when it matches only an endpoint-failure pattern, and
returns application-rpc-error when it matches neither list.  Falsy error
values short-circuit to application-rpc-error before any matching. -/
theorem C4_classifier_priority (e : Json) :
    (jsTruthy e = false → isEndpointFailure e = false)
    ∧ (jsTruthy e = true →
        ((NORMAL_RPC_ERROR_PATTERNS.any (fun p => rxTest p (errorStrOf e)) = true →
            isEndpointFailure e = false)
        ∧ (NORMAL_RPC_ERROR_PATTERNS.any (fun p => rxTest p (errorStrOf e)) = false →
           ENDPOINT_FAILURE_PATTERNS.any (fun p => rxTest p (errorStrOf e)) = true →
            isEndpointFailure e = true)
        ∧ (NORMAL_RPC_ERROR_PATTERNS.any (fun p => rxTest p (errorStrOf e)) = false →
           ENDPOINT_FAILURE_PATTERNS.any (fun p => rxTest p (errorStrOf e)) = false →
            isEndpointFailure e = false))) := by
  constructor
  · intro h0; simp [isEndpointFailure, h0]
  · intro h1
    refine ⟨fun hN => ?_, fun hN hE => ?_, fun hN hE => ?_⟩
    · simp [isEndpointFailure, h1, hN]
    · simp [isEndpointFailure, h1, hN, hE]
    · simp [isEndpointFailure, h1, hN, hE]

/-- **C4 witness.** `"gas limit timeout"` matches both a normal-RPC pattern
and an endpoint-failure pattern, and is classified application-rpc-error. -/
theorem C4_classifier_priority_witness :
    isEndpointFailure (Json.str "gas limit timeout") = false
    ∧ NORMAL_RPC_ERROR_PATTERNS.any
        (fun p => rxTest p (errorStrOf (Json.str "gas limit timeout"))) = true
    ∧ ENDPOINT_FAILURE_PATTERNS.any
        (fun p => rxTest p (errorStrOf (Json.str "gas limit timeout"))) = true :=
  ⟨(((C4_classifier_priority (Json.str "gas limit timeout")).2 (by decide)).1 (by decide)),
   by decide, by decide⟩

/-- **C5.** A previously-healthy endpoint record transitions to unhealthy on
a recorded failure exactly when that failure makes three consecutive
failures, and any recorded success resets the streak to zero and restores
`isHealthy = true`. -/
theorem C5_unhealthy_threshold (h : EndpointHealth) (now : Nat) (rt : Option Nat) :
    ((updateEndpointHealthRec now h true rt).consecutiveFailures = 0 ∧
     (updateEndpointHealthRec now h true rt).isHealthy = true)
    ∧ (ReachableHealth h → h.isHealthy = true →
        ((updateEndpointHealthRec now h false none).isHealthy = false ↔
         (updateEndpointHealthRec now h false none).consecutiveFailures = 3)) := by
  refine ⟨updateRec_success now h rt, fun hr hH => ?_⟩
  have hcf := reachable_healthy_cf_le_two hr hH
  rw [updateRec_fail_cf]
  constructor
  · intro hfalse
    by_cases h3 : 3 ≤ h.consecutiveFailures + 1
    · omega
    · rw [updateRec_fail_healthy_of_lt now h none (by omega)] at hfalse
      rw [hfalse] at hH
      exact absurd hH (by simp)
  · intro h3
    exact updateRec_fail_healthy_of_ge now h none (by omega) hH

/-- **C5 witness.** Concretely, after two recorded failures the record is
still healthy, a success would reset it, and the third failure flips it
with the streak at exactly three. -/
theorem C5_unhealthy_threshold_witness :
    ((updateEndpointHealthRec 2 healthAfterTwoFailures true none).consecutiveFailures = 0 ∧
     (updateEndpointHealthRec 2 healthAfterTwoFailures true none).isHealthy = true)
    ∧ ((updateEndpointHealthRec 2 healthAfterTwoFailures false none).isHealthy = false ↔
       (updateEndpointHealthRec 2 healthAfterTwoFailures false none).consecutiveFailures = 3) :=
  ⟨(C5_unhealthy_threshold healthAfterTwoFailures 2 none).1,
   (C5_unhealthy_threshold healthAfterTwoFailures 2 none).2
     (.update 1 false none (.update 0 false none (.init "a"))) (by decide)⟩

/-- **C6.** For every dispatch to a registered endpoint URL,
`activeRequests` is incremented before the send and the dispatch leaves it
exactly at its starting value on every exit path, never negative when it
started nonnegative. -/
theorem C6_active_balance (net : Net) (now : Nat) (request : Json) (url : String)
    (st : CoreState) (h0 : EndpointHealth) (hreg : st.health url = some h0) :
    ((proxyRequest net now request url st).2.health url).map EndpointHealth.activeRequests
      = some h0.activeRequests
    ∧ ((beginDispatch url st).health url).map EndpointHealth.activeRequests
      = some (h0.activeRequests + 1)
    ∧ (0 ≤ h0.activeRequests →
        0 ≤ h0.activeRequests + 1 ∧
        ∀ v, ((proxyRequest net now request url st).2.health url).map
               EndpointHealth.activeRequests = some v → 0 ≤ v) := by
  have hbal : ((proxyRequest net now request url st).2.health url).map
      EndpointHealth.activeRequests = some h0.activeRequests := by
    unfold proxyRequest
    cases net url request with
    | ok dat elapsed =>
        dsimp only
        split_ifs <;>
          simp [beginDispatch, endDispatch, updateHealthMap, hreg, updateRec_active]
    | fail msg isTimeout =>
        simp [beginDispatch, endDispatch, updateHealthMap, hreg, updateRec_active]
  refine ⟨hbal, ?_, fun hpos => ⟨by omega, fun v hv => ?_⟩⟩
  · simp [beginDispatch, hreg]
  · rw [hbal] at hv
    exact (Option.some.inj hv) ▸ hpos

/-- **C6 witness.** The balance at endpoint `a` of the two-endpoint state,
through a dispatch that returns an application error. -/
theorem C6_active_balance_witness :
    ((proxyRequest netRevertThenOk 0 reqEthCall "a" stTwoHealthy).2.health "a").map
        EndpointHealth.activeRequests = some (initHealth "a").activeRequests
    ∧ ((beginDispatch "a" stTwoHealthy).health "a").map EndpointHealth.activeRequests
        = some ((initHealth "a").activeRequests + 1)
    ∧ (0 ≤ (initHealth "a").activeRequests →
        0 ≤ (initHealth "a").activeRequests + 1 ∧
        ∀ v, ((proxyRequest netRevertThenOk 0 reqEthCall "a" stTwoHealthy).2.health "a").map
               EndpointHealth.activeRequests = some v → 0 ≤ v) :=
  C6_active_balance netRevertThenOk 0 reqEthCall "a" stTwoHealthy (initHealth "a") rfl

/-- **C2 counterexample.** With two endpoints, the first unhealthy and the
cursor at 0, a primary pick examines two candidates and leaves the cursor
at 0 — not advanced by exactly one position to 1 as the claim states. -/
theorem C2_cursor_counterexample :
    (getNextRpcUrlSimple cfgTwo stFirstUnhealthy).1 = "b"
    ∧ (getNextRpcUrlSimple cfgTwo stFirstUnhealthy).2.cursor = 0
    ∧ (stFirstUnhealthy.cursor + 1) % cfgTwo.urls.length = 1
    ∧ (0 : Nat) ≠ 1 :=
  ⟨rfl, rfl, rfl, by omega⟩

/-- **C2 (amended).** The shared cursor advances once per examined
candidate, not once per pick: it advances exactly one position when the
first examined candidate is accepted; in general it advances `k` positions
for some `1 ≤ k ≤ N`; and when no candidate is accepted (the least-loaded
fallback) it has advanced a full revolution, ending where it started. -/
theorem C2_cursor_advance (cfg : Config) (st : CoreState)
    (hN : 0 < cfg.urls.length) (hcur : st.cursor < cfg.urls.length) :
    (healthyWithCapacity cfg st (cfg.urls.getD st.cursor "") = true →
       (getNextRpcUrlSimple cfg st).2.cursor = (st.cursor + 1) % cfg.urls.length)
    ∧ (∃ k, 1 ≤ k ∧ k ≤ cfg.urls.length ∧
         (getNextRpcUrlSimple cfg st).2.cursor = (st.cursor + k) % cfg.urls.length)
    ∧ ((pickLoop cfg st cfg.urls.length st.cursor).1 = none →
         (getNextRpcUrlSimple cfg st).2.cursor = st.cursor) := by
  obtain ⟨k, hk, hsome, hnone, hcurEq⟩ :=
    pickLoop_cursor cfg st hN cfg.urls.length st.cursor hcur
  refine ⟨?_, ?_, ?_⟩
  · intro hcap
    have hcap2 : healthyWithCapacity cfg st (cfg.urls[st.cursor]?.getD "") = true := by
      simpa using hcap
    obtain ⟨m, hm⟩ : ∃ m, cfg.urls.length = m + 1 := ⟨cfg.urls.length - 1, by omega⟩
    rw [getNext_cursor, hm]
    simp [pickLoop, hcap2, hm]
  · have h1k : 1 ≤ k := by
      rcases hh : (pickLoop cfg st cfg.urls.length st.cursor).1 with _ | v
      · have := hnone hh; omega
      · exact hsome (by simp [hh])
    exact ⟨k, h1k, hk, by rw [getNext_cursor]; exact hcurEq⟩
  · intro hres
    have := hnone hres
    rw [getNext_cursor, hcurEq, this, Nat.add_mod_right, Nat.mod_eq_of_lt hcur]

/-- **C2 witness.** The amended statement evaluated on the two-endpoint
configuration with the first endpoint unhealthy. -/
theorem C2_cursor_advance_witness :
    (healthyWithCapacity cfgTwo stFirstUnhealthy
        (cfgTwo.urls.getD stFirstUnhealthy.cursor "") = true →
       (getNextRpcUrlSimple cfgTwo stFirstUnhealthy).2.cursor
         = (stFirstUnhealthy.cursor + 1) % cfgTwo.urls.length)
    ∧ (∃ k, 1 ≤ k ∧ k ≤ cfgTwo.urls.length ∧
         (getNextRpcUrlSimple cfgTwo stFirstUnhealthy).2.cursor
           = (stFirstUnhealthy.cursor + k) % cfgTwo.urls.length)
    ∧ ((pickLoop cfgTwo stFirstUnhealthy cfgTwo.urls.length stFirstUnhealthy.cursor).1 = none →
         (getNextRpcUrlSimple cfgTwo stFirstUnhealthy).2.cursor = stFirstUnhealthy.cursor) :=
  C2_cursor_advance cfgTwo stFirstUnhealthy (by decide) (by decide)


theorem retryUrlsLoop_length (cfg : Config) (st : CoreState) (f : String) (m : Nat) :
    ∀ fuel idx acc, acc.length ≤ m →
      (retryUrlsLoop cfg st f m fuel idx acc).length ≤ m := by
  intro fuel
  induction fuel with
  | zero => intro idx acc h; simpa [retryUrlsLoop] using h
  | succ n ih =>
      intro idx acc h
      by_cases hlt : acc.length < m
      · simp only [retryUrlsLoop, if_pos hlt]
        split_ifs with hok
        · exact ih _ _ (by simp; omega)
        · exact ih _ _ h
      · simpa [retryUrlsLoop, if_neg hlt] using h

theorem retryUrlsLoop_not_mem (cfg : Config) (st : CoreState) (f : String) (m : Nat) :
    ∀ fuel idx acc, f ∉ acc →
      f ∉ retryUrlsLoop cfg st f m fuel idx acc := by
  intro fuel
  induction fuel with
  | zero => intro idx acc h; simpa [retryUrlsLoop] using h
  | succ n ih =>
      intro idx acc h
      by_cases hlt : acc.length < m
      · simp only [retryUrlsLoop, if_pos hlt]
        split_ifs with hok
        · refine ih _ _ ?_
          simp only [List.mem_append, List.mem_singleton]
          rintro (hmem | rfl)
          · exact h hmem
          · simp at hok
        · exact ih _ _ h
      · simpa [retryUrlsLoop, if_neg hlt] using h

theorem getRetryRpcUrls_bound (cfg : Config) (st : CoreState) (f : String) (m : Nat) :
    (getRetryRpcUrls cfg st f m).length ≤ m ∧ f ∉ getRetryRpcUrls cfg st f m := by
  unfold getRetryRpcUrls
  rcases cfg.urls.findIdx? (fun u => u = f) with _ | i
  · simp
  · exact ⟨retryUrlsLoop_length cfg st f m _ _ [] (by simp),
           retryUrlsLoop_not_mem cfg st f m _ _ [] (by simp)⟩

theorem retryLoop_count_le (net : Net) (now : Nat) (request : Json) :
    ∀ (urls : List String) (lastError : Json) (st : CoreState) (n : Nat),
      (retryLoop net now request urls lastError st n).2.2 ≤ n + urls.length := by
  intro urls
  induction urls with
  | nil => intro l st n; simp [retryLoop]
  | cons u rest ih =>
      intro l st n
      simp only [retryLoop]
      split_ifs with hok
      · simp
      · have := ih (proxyRequest net now request u st).1
          (proxyRequest net now request u st).2 (n + 1)
        simp only [List.length_cons]
        omega

theorem retryLoop_count_ge (net : Net) (now : Nat) (request : Json) :
    ∀ (urls : List String) (lastError : Json) (st : CoreState) (n : Nat),
      urls ≠ [] → n + 1 ≤ (retryLoop net now request urls lastError st n).2.2 := by
  intro urls
  induction urls with
  | nil => intro l st n h; exact absurd rfl h
  | cons u rest ih =>
      intro l st n _
      simp only [retryLoop]
      split_ifs with hok
      · simp
      · cases rest with
        | nil => simp [retryLoop]
        | cons v rest2 =>
            exact le_trans (Nat.le_succ _)
              (ih (proxyRequest net now request u st).1
                  (proxyRequest net now request u st).2 (n + 1) (by simp))

/-- **C8.** The retry orchestrator performs at most `1 + MAX_RETRY_ATTEMPTS`
upstream dispatches per client request, because the retry picker returns at
most `MAX_RETRY_ATTEMPTS` URLs and never includes the failed URL. -/
theorem C8_retry_bound (cfg : Config) (net : Net) (now : Nat) (request : Json)
    (st st2 : CoreState) (failedUrl : String) (m : Nat) :
    (proxyRequestWithRetry cfg net now request st).2.2 ≤ 1 + cfg.maxRetry
    ∧ (getRetryRpcUrls cfg st2 failedUrl m).length ≤ m
    ∧ failedUrl ∉ getRetryRpcUrls cfg st2 failedUrl m := by
  refine ⟨?_, (getRetryRpcUrls_bound cfg st2 failedUrl m).1,
          (getRetryRpcUrls_bound cfg st2 failedUrl m).2⟩
  unfold proxyRequestWithRetry
  rcases hlm : handleLocalMethod request with _ | r
  · dsimp only
    split_ifs with he hm
    · simp
    · have hle := retryLoop_count_le net now request
        (getRetryRpcUrls cfg
          (proxyRequest net now request (getNextRpcUrlSimple cfg st).1
            (getNextRpcUrlSimple cfg st).2).2
          (getNextRpcUrlSimple cfg st).1 cfg.maxRetry)
        (proxyRequest net now request (getNextRpcUrlSimple cfg st).1
          (getNextRpcUrlSimple cfg st).2).1
        (proxyRequest net now request (getNextRpcUrlSimple cfg st).1
          (getNextRpcUrlSimple cfg st).2).2 1
      have hlen := (getRetryRpcUrls_bound cfg
        (proxyRequest net now request (getNextRpcUrlSimple cfg st).1
          (getNextRpcUrlSimple cfg st).2).2
        (getNextRpcUrlSimple cfg st).1 cfg.maxRetry).1
      omega
    · simp
  · simp


/-- **C9.** Every `eth_chainId` request is answered locally with result
`"0xa4b1"` and every `net_version` request with result `"42161"`, with
zero upstream dispatches and the core state untouched. -/
theorem C9_local_shortcut (cfg : Config) (net : Net) (now : Nat) (st : CoreState) (request : Json) :
    (objGet request "method" = some (.str "eth_chainId") →
      proxyRequestWithRetry cfg net now request st =
        (Json.obj [("jsonrpc", .str "2.0"), ("id", jsOr (objGet request "id") .null),
                   ("result", .str "0xa4b1")], st, 0))
    ∧ (objGet request "method" = some (.str "net_version") →
      proxyRequestWithRetry cfg net now request st =
        (Json.obj [("jsonrpc", .str "2.0"), ("id", jsOr (objGet request "id") .null),
                   ("result", .str "42161")], st, 0)) := by
  constructor
  · intro h
    have hl : handleLocalMethod request
        = some (Json.obj [("jsonrpc", .str "2.0"), ("id", jsOr (objGet request "id") .null),
                          ("result", .str "0xa4b1")]) := by
      unfold handleLocalMethod
      rw [h]
      exact rfl
    unfold proxyRequestWithRetry
    rw [hl]
  · intro h
    have hl : handleLocalMethod request
        = some (Json.obj [("jsonrpc", .str "2.0"), ("id", jsOr (objGet request "id") .null),
                          ("result", .str "42161")]) := by
      unfold handleLocalMethod
      rw [h]
      exact rfl
    unfold proxyRequestWithRetry
    rw [hl]

/-- **C9 witness.** The short-circuits evaluated on concrete requests with
ids 9 and 7 against the two-endpoint state. -/
theorem C9_local_shortcut_witness :
    proxyRequestWithRetry cfgTwo netRevertThenOk 0 reqChainIdNine stTwoHealthy =
      (Json.obj [("jsonrpc", .str "2.0"), ("id", .num 9), ("result", .str "0xa4b1")],
       stTwoHealthy, 0)
    ∧ proxyRequestWithRetry cfgTwo netRevertThenOk 0 reqNetVersionSeven stTwoHealthy =
      (Json.obj [("jsonrpc", .str "2.0"), ("id", .num 7), ("result", .str "42161")],
       stTwoHealthy, 0) :=
  ⟨(C9_local_shortcut cfgTwo netRevertThenOk 0 stTwoHealthy reqChainIdNine).1 rfl,
   (C9_local_shortcut cfgTwo netRevertThenOk 0 stTwoHealthy reqNetVersionSeven).2 rfl⟩


/-- **C3 counterexample.** A valid `eth_chainId` envelope with id `0` is
answered with id `null`, not id `0`: the `request.id || null` coercion
collapses falsy ids. -/
theorem C3_falsy_id_counterexample :
    (handleLocalMethod reqChainIdZero).map (fun r => objGet r "id") = some (some Json.null)
    ∧ (some (some Json.null) : Option (Option Json)) ≠ some (some (Json.num 0)) :=
  ⟨rfl, by simp⟩

/-- **C3 (amended).** Truthy request ids are preserved verbatim on every
locally synthesized response (local shortcut, dispatcher-synthesized
timeout or internal error, invalid-request rejection), and upstream
passthrough echoes the upstream envelope id (hence `x` whenever the
upstream echoes `x`); falsy ids (`0`, `""`) are replaced by `null` on the
locally synthesized responses. -/
theorem C3_id_preservation (x request dat r : Json) (msg : String) (b : Bool)
    (hid : objGet request "id" = some x) (hx : jsTruthy x = true) :
    (handleLocalMethod request = some r → objGet r "id" = some x)
    ∧ objGet (dispatchErrorResponse request msg b) "id" = some x
    ∧ objGet (invalidRequestResponse request) "id" = some x
    ∧ (objGet dat "id" = some x → objGet (normalizeResponseFieldOrder dat) "id" = some x) := by
  have hor : jsOr (objGet request "id") .null = x := by
    rw [hid]; simp [jsOr, hx]
  refine ⟨?_, ?_, ?_, ?_⟩
  · intro hsome
    unfold handleLocalMethod at hsome
    split at hsome
    · injection hsome with hr
      subst hr
      show some (jsOr (objGet request "id") Json.null) = some x
      rw [hor]
    · injection hsome with hr
      subst hr
      show some (jsOr (objGet request "id") Json.null) = some x
      rw [hor]
    · exact absurd hsome (by simp)
  · show some (jsOr (objGet request "id") Json.null) = some x
    rw [hor]
  · show some (jsOr (objGet request "id") Json.null) = some x
    rw [hor]
  · intro hdat
    show some ((objGet dat "id").getD Json.null) = some x
    rw [hdat]
    rfl

/-- An upstream envelope echoing id 7. -/
def datPassthroughSeven : Json :=
  .obj [("jsonrpc", .str "2.0"), ("id", .num 7), ("result", .str "0x1")]

/-- **C3 witness.** Id `7` preserved across all four response shapes. -/
theorem C3_id_preservation_witness :
    (handleLocalMethod reqNetVersionSeven =
        some (Json.obj [("jsonrpc", .str "2.0"), ("id", .num 7), ("result", .str "42161")]) →
      objGet (Json.obj [("jsonrpc", .str "2.0"), ("id", .num 7), ("result", .str "42161")]) "id"
        = some (.num 7))
    ∧ objGet (dispatchErrorResponse reqNetVersionSeven "boom" true) "id" = some (.num 7)
    ∧ objGet (invalidRequestResponse reqNetVersionSeven) "id" = some (.num 7)
    ∧ (objGet datPassthroughSeven "id" = some (.num 7) →
       objGet (normalizeResponseFieldOrder datPassthroughSeven) "id" = some (.num 7)) :=
  C3_id_preservation (.num 7) reqNetVersionSeven datPassthroughSeven
    (Json.obj [("jsonrpc", .str "2.0"), ("id", .num 7), ("result", .str "42161")])
    "boom" true rfl (by decide)

/-- An upstream envelope with neither `result` nor `error`. -/
def respNoResultNoError : Json := .obj [("jsonrpc", .str "2.0"), ("id", .num 1)]

/-- **C7 counterexample.** An upstream envelope carrying neither `result`
nor `error` is normalized to an envelope with only the keys
`jsonrpc, id` — not exactly one of `result`/`error` as claimed. -/
theorem C7_neither_field_counterexample :
    keysOf (normalizeResponseFieldOrder respNoResultNoError) = ["jsonrpc", "id"]
    ∧ "result" ∉ keysOf (normalizeResponseFieldOrder respNoResultNoError)
    ∧ "error" ∉ keysOf (normalizeResponseFieldOrder respNoResultNoError) :=
  ⟨rfl, by decide, by decide⟩

/-- **C7 (amended).** Every normalized or synthesized `/rpc` envelope has
its keys in the order `jsonrpc, id`, then **at most** one of
`result`/`error`: `error` alone when the upstream error is truthy, `result`
alone when the error is falsy and a result is present, and neither key when
the upstream envelope carries neither. -/
theorem C7_field_order (dat req : Json) (msg : String) (b : Bool) :
    ((keysOf (normalizeResponseFieldOrder dat) = ["jsonrpc", "id", "error"]
        ∧ jsTruthyO (objGet dat "error") = true)
     ∨ (keysOf (normalizeResponseFieldOrder dat) = ["jsonrpc", "id", "result"]
        ∧ jsTruthyO (objGet dat "error") = false ∧ (objGet dat "result").isSome = true)
     ∨ (keysOf (normalizeResponseFieldOrder dat) = ["jsonrpc", "id"]
        ∧ jsTruthyO (objGet dat "error") = false ∧ (objGet dat "result").isSome = false))
    ∧ keysOf (dispatchErrorResponse req msg b) = ["jsonrpc", "id", "error"]
    ∧ keysOf (invalidRequestResponse req) = ["jsonrpc", "id", "error"]
    ∧ keysOf parseErrorResponse = ["jsonrpc", "id", "error"]
    ∧ keysOf probeResponse = ["jsonrpc", "id", "result"]
    ∧ keysOf ((handleLocalMethod req).getD probeResponse) = ["jsonrpc", "id", "result"] := by
  refine ⟨?_, rfl, rfl, rfl, rfl, ?_⟩
  · by_cases he : jsTruthyO (objGet dat "error") = true
    · exact Or.inl ⟨by simp [normalizeResponseFieldOrder, keysOf, he], he⟩
    · have he2 : jsTruthyO (objGet dat "error") = false := by simpa using he
      by_cases hr : (objGet dat "result").isSome = true
      · exact Or.inr (Or.inl ⟨by simp [normalizeResponseFieldOrder, keysOf, he2, hr], he2, hr⟩)
      · have hr2 : (objGet dat "result").isSome = false := by simpa using hr
        exact Or.inr (Or.inr ⟨by simp [normalizeResponseFieldOrder, keysOf, he2, hr2], he2, hr2⟩)
  · rcases hh : handleLocalMethod req with _ | r
    · rfl
    · unfold handleLocalMethod at hh
      split at hh
      · injection hh with hr; subst hr; rfl
      · injection hh with hr; subst hr; rfl
      · exact absurd hh (by simp)


/-- **C1 (amended).** The retry orchestrator dispatches to alternative
endpoints whenever the primary response carries any truthy error, retries
are enabled, and a retry candidate exists — with no consultation of the
error classifier; application-RPC errors are retried just like
endpoint failures. -/
theorem C1_retry_not_gated (cfg : Config) (net : Net) (now : Nat) (request : Json) (st : CoreState)
    (hlocal : handleLocalMethod request = none)
    (herr : jsTruthyO (objGet (proxyRequest net now request (getNextRpcUrlSimple cfg st).1
              (getNextRpcUrlSimple cfg st).2).1 "error") = true)
    (hm : 0 < cfg.maxRetry)
    (hne : getRetryRpcUrls cfg
             (proxyRequest net now request (getNextRpcUrlSimple cfg st).1
               (getNextRpcUrlSimple cfg st).2).2
             (getNextRpcUrlSimple cfg st).1 cfg.maxRetry ≠ []) :
    2 ≤ (proxyRequestWithRetry cfg net now request st).2.2 := by
  unfold proxyRequestWithRetry
  rw [hlocal]
  dsimp only
  split_ifs with h1
  · rw [herr] at h1
    exact absurd h1 (by simp)
  · exact retryLoop_count_ge net now request _ _ _ 1 hne

/-- **C1 counterexample.** A primary response carrying `execution reverted`
— classified as an application-RPC error — still triggers a retry dispatch:
the orchestrator performs 2 upstream dispatches. -/
theorem C1_app_error_retried_counterexample :
    isEndpointFailure errReverted = false
    ∧ jsTruthyO (objGet (proxyRequest netRevertThenOk 0 reqEthCall "a" stTwoHealthy).1
        "error") = true
    ∧ (proxyRequestWithRetry cfgTwo netRevertThenOk 0 reqEthCall stTwoHealthy).2.2 = 2 :=
  ⟨by decide, by decide, by decide⟩

/-- **C1 witness.** The amended statement on the concrete reverted-call
scenario. -/
theorem C1_retry_not_gated_witness :
    2 ≤ (proxyRequestWithRetry cfgTwo netRevertThenOk 0 reqEthCall stTwoHealthy).2.2 :=
  C1_retry_not_gated cfgTwo netRevertThenOk 0 reqEthCall stTwoHealthy rfl (by decide) (by decide)
    (by decide)


/-- A batch with no `null` element runs the per-element loop to completion:
no `TypeError` is thrown. -/
theorem processBatch_ok (cfg : Config) (net : Net) (now : Nat) :
    ∀ (requests : List Json) (core : CoreState), Json.null ∉ requests →
      ∃ rs, (processBatch cfg net now core requests).1 = Except.ok rs := by
  intro requests
  induction requests with
  | nil => intro core _; exact ⟨[], rfl⟩
  | cons r rest ih =>
      intro core h
      have hr : r.isNull = false := by
        cases r <;> first | rfl | exact absurd (List.mem_cons_self _ _) h
      have hrest : Json.null ∉ rest := fun hm => h (List.mem_cons_of_mem _ hm)
      by_cases hv : (!jsTruthyO (objGet r "jsonrpc") || !jsTruthyO (objGet r "method")) = true
      · obtain ⟨rs, hrs⟩ := ih core hrest
        exact ⟨invalidRequestResponse r :: rs, by simp [processBatch, hr, hv, hrs, Except.map]⟩
      · obtain ⟨rs, hrs⟩ :=
          ih (proxyRequestWithRetry cfg net now r core).2.1 hrest
        exact ⟨(proxyRequestWithRetry cfg net now r core).1 :: rs,
               by simp [processBatch, hr, hv, hrs, Except.map]⟩

/-- A batch containing a `null` element throws: the loop aborts with the
`TypeError` raised by property access on the `null` element. -/
theorem processBatch_error (cfg : Config) (net : Net) (now : Nat) :
    ∀ (requests : List Json) (core : CoreState), Json.null ∈ requests →
      (processBatch cfg net now core requests).1 = Except.error () := by
  intro requests
  induction requests with
  | nil => intro core h; exact absurd h (List.not_mem_nil _)
  | cons r rest ih =>
      intro core h
      by_cases hr : r.isNull = true
      · simp [processBatch, hr]
      · have hr2 : r.isNull = false := by simpa using hr
        have hmem : Json.null ∈ rest := by
          rcases List.mem_cons.mp h with heq | hm
          · rw [← heq] at hr2
            simp [Json.isNull] at hr2
          · exact hm
        by_cases hv : (!jsTruthyO (objGet r "jsonrpc") || !jsTruthyO (objGet r "method")) = true
        · simp [processBatch, hr2, hv, ih _ hmem, Except.map]
        · simp [processBatch, hr2, hv, ih _ hmem, Except.map]

/-- **C10 (amended).** For every batch with no `null` element, the
per-element pipeline neither reads nor writes the response cache (responses
are identical for any cache contents, cache unchanged) and leaves
`successfulRequests`, `failedRequests`, `rpcErrors`, `proxyErrors`
untouched, with `totalRequests` incrementing once per HTTP request.  A
batch containing a `null` element instead throws a `TypeError` out of the
loop into the handler's catch, which answers with the single parse-error
envelope and increments `failedRequests` once (the other counters and the
cache still untouched, `totalRequests` still once). -/
theorem C10_batch_frame (tyMsg : String) (cfg : Config) (net : Net) (now : Nat)
    (st : ServerState) (requests : List Json) :
    (Json.null ∉ requests →
       (handleRpcPost tyMsg cfg net now st (.arr requests)).2.cache = st.cache
       ∧ (handleRpcPost tyMsg cfg net now st (.arr requests)).2.stats.successfulRequests
           = st.stats.successfulRequests
       ∧ (handleRpcPost tyMsg cfg net now st (.arr requests)).2.stats.failedRequests
           = st.stats.failedRequests
       ∧ (handleRpcPost tyMsg cfg net now st (.arr requests)).2.stats.rpcErrors
           = st.stats.rpcErrors
       ∧ (handleRpcPost tyMsg cfg net now st (.arr requests)).2.stats.proxyErrors
           = st.stats.proxyErrors
       ∧ (handleRpcPost tyMsg cfg net now st (.arr requests)).2.stats.totalRequests
           = st.stats.totalRequests + 1
       ∧ ∀ cache2, (handleRpcPost tyMsg cfg net now { st with cache := cache2 } (.arr requests)).1
           = (handleRpcPost tyMsg cfg net now st (.arr requests)).1)
    ∧ (Json.null ∈ requests →
       (handleRpcPost tyMsg cfg net now st (.arr requests)).1 = parseErrorResponse
       ∧ (handleRpcPost tyMsg cfg net now st (.arr requests)).2.stats.failedRequests
           = st.stats.failedRequests + 1
       ∧ (handleRpcPost tyMsg cfg net now st (.arr requests)).2.stats.successfulRequests
           = st.stats.successfulRequests
       ∧ (handleRpcPost tyMsg cfg net now st (.arr requests)).2.stats.rpcErrors
           = st.stats.rpcErrors
       ∧ (handleRpcPost tyMsg cfg net now st (.arr requests)).2.stats.proxyErrors
           = st.stats.proxyErrors
       ∧ (handleRpcPost tyMsg cfg net now st (.arr requests)).2.cache = st.cache
       ∧ (handleRpcPost tyMsg cfg net now st (.arr requests)).2.stats.totalRequests
           = st.stats.totalRequests + 1) := by
  constructor
  · intro hnull
    obtain ⟨rs, hok⟩ := processBatch_ok cfg net now requests st.core hnull
    have hmain : handleRpcPost tyMsg cfg net now st (Json.arr requests)
        = (Json.arr rs,
           { core := (processBatch cfg net now st.core requests).2
             stats := { st.stats with totalRequests := st.stats.totalRequests + 1 }
             cache := st.cache }) := by
      unfold handleRpcPost
      dsimp only
      rw [hok]
    have hmain2 : ∀ cache2, handleRpcPost tyMsg cfg net now { st with cache := cache2 }
          (Json.arr requests)
        = (Json.arr rs,
           { core := (processBatch cfg net now st.core requests).2
             stats := { st.stats with totalRequests := st.stats.totalRequests + 1 }
             cache := cache2 }) := by
      intro cache2
      unfold handleRpcPost
      dsimp only
      rw [hok]
    refine ⟨?_, ?_, ?_, ?_, ?_, ?_, fun cache2 => ?_⟩
    · rw [hmain]
    · rw [hmain]
    · rw [hmain]
    · rw [hmain]
    · rw [hmain]
    · rw [hmain]
    · rw [hmain2 cache2, hmain]
  · intro hnull
    have herr := processBatch_error cfg net now requests st.core hnull
    have hmain : handleRpcPost tyMsg cfg net now st (Json.arr requests)
        = (parseErrorResponse,
           { core := (processBatch cfg net now st.core requests).2
             stats := { st.stats with
                        totalRequests := st.stats.totalRequests + 1
                        failedRequests := st.stats.failedRequests + 1
                        lastError := some (.str tyMsg) }
             cache := st.cache }) := by
      unfold handleRpcPost
      dsimp only
      rw [herr]
    refine ⟨?_, ?_, ?_, ?_, ?_, ?_, ?_⟩ <;> rw [hmain]


/-- The all-zero startup stats record (server.ts lines 34-42). -/
def statsZero : Stats :=
  { totalRequests := 0, successfulRequests := 0, failedRequests := 0,
    rpcErrors := 0, proxyErrors := 0, lastError := none, lastRpcError := none }

/-- A fresh server state over the two-endpoint core. -/
def srvZero : ServerState := { core := stTwoHealthy, stats := statsZero, cache := [] }

/-- **C10 counterexample.** A batch whose single element is `null` makes
the per-element loop throw; the handler's catch answers with the single
parse-error envelope (not an array) and increments `failedRequests` from 0
to 1 — the counters are not left unchanged as the claim states. -/
theorem C10_null_batch_counterexample :
    (handleRpcPost "TypeError" cfgTwo netRevertThenOk 0 srvZero (.arr [.null])).1
      = parseErrorResponse
    ∧ (handleRpcPost "TypeError" cfgTwo netRevertThenOk 0 srvZero (.arr [.null])).2.stats.failedRequests
      = 1
    ∧ srvZero.stats.failedRequests = 0
    ∧ (1 : Nat) ≠ 0 :=
  ⟨rfl, rfl, rfl, by omega⟩

/-- **C10 witness.** Both halves of the amended statement evaluated
concretely: a one-element object batch and the one-element `null` batch. -/
theorem C10_batch_frame_witness :
    ((handleRpcPost "TypeError" cfgTwo netRevertThenOk 0 srvZero (.arr [reqChainIdNine])).2.cache
        = srvZero.cache
     ∧ (handleRpcPost "TypeError" cfgTwo netRevertThenOk 0 srvZero
          (.arr [reqChainIdNine])).2.stats.successfulRequests = srvZero.stats.successfulRequests
     ∧ (handleRpcPost "TypeError" cfgTwo netRevertThenOk 0 srvZero
          (.arr [reqChainIdNine])).2.stats.failedRequests = srvZero.stats.failedRequests
     ∧ (handleRpcPost "TypeError" cfgTwo netRevertThenOk 0 srvZero
          (.arr [reqChainIdNine])).2.stats.rpcErrors = srvZero.stats.rpcErrors
     ∧ (handleRpcPost "TypeError" cfgTwo netRevertThenOk 0 srvZero
          (.arr [reqChainIdNine])).2.stats.proxyErrors = srvZero.stats.proxyErrors
     ∧ (handleRpcPost "TypeError" cfgTwo netRevertThenOk 0 srvZero
          (.arr [reqChainIdNine])).2.stats.totalRequests = srvZero.stats.totalRequests + 1)
    ∧ ((handleRpcPost "TypeError" cfgTwo netRevertThenOk 0 srvZero (.arr [Json.null])).1
        = parseErrorResponse
     ∧ (handleRpcPost "TypeError" cfgTwo netRevertThenOk 0 srvZero
          (.arr [Json.null])).2.stats.failedRequests = srvZero.stats.failedRequests + 1
     ∧ (handleRpcPost "TypeError" cfgTwo netRevertThenOk 0 srvZero
          (.arr [Json.null])).2.stats.successfulRequests = srvZero.stats.successfulRequests
     ∧ (handleRpcPost "TypeError" cfgTwo netRevertThenOk 0 srvZero
          (.arr [Json.null])).2.stats.rpcErrors = srvZero.stats.rpcErrors
     ∧ (handleRpcPost "TypeError" cfgTwo netRevertThenOk 0 srvZero
          (.arr [Json.null])).2.stats.proxyErrors = srvZero.stats.proxyErrors
     ∧ (handleRpcPost "TypeError" cfgTwo netRevertThenOk 0 srvZero
          (.arr [Json.null])).2.cache = srvZero.cache
     ∧ (handleRpcPost "TypeError" cfgTwo netRevertThenOk 0 srvZero
          (.arr [Json.null])).2.stats.totalRequests = srvZero.stats.totalRequests + 1) := by
  have hA := (C10_batch_frame "TypeError" cfgTwo netRevertThenOk 0 srvZero [reqChainIdNine]).1
    (by simp [reqChainIdNine])
  have hB := (C10_batch_frame "TypeError" cfgTwo netRevertThenOk 0 srvZero [Json.null]).2
    (by simp)
  exact ⟨⟨hA.1, hA.2.1, hA.2.2.1, hA.2.2.2.1, hA.2.2.2.2.1, hA.2.2.2.2.2.1⟩, hB⟩

end ObsidianRpc
